import Mathlib

/-
Verification of the supply-chain analyzer's data-transformation core
(streamlit_app.py): metric computation, anomaly sampling, the
session-state transition of one analysis run, and the CSV load path.

Numeric columns are modelled as rationals; `round(x, 2)` is modelled as
round-half-to-even at the second decimal, matching Python's `round`.
-/

namespace SupplyChain

/-- One row of the uploaded table, after the Date column has been parsed.
Field order follows the required CSV columns: Date, Supplier, Product,
Order_Quantity, Delivery_Time_Days, Inventory_Level, Order_Value, Status. -/
structure Record where
  date : String
  supplier : String
  product : String
  orderQuantity : Rat
  deliveryTimeDays : Rat
  inventoryLevel : Rat
  orderValue : Rat
  status : String
deriving DecidableEq, Repr

/-- Python `round` to an integer: round half to even (banker's rounding). -/
def roundHalfEven (x : Rat) : Int :=
  if x - (⌊x⌋ : Rat) < 1/2 then ⌊x⌋
  else if 1/2 < x - (⌊x⌋ : Rat) then ⌊x⌋ + 1
  else if ⌊x⌋ % 2 == 0 then ⌊x⌋ else ⌊x⌋ + 1

/-- Python `round(x, 2)`: round half to even at the second decimal place. -/
def round2 (x : Rat) : Rat :=
  ((roundHalfEven (x * 100) : Int) : Rat) / 100

/-- pandas `drop_duplicates` / `unique`, accumulator form: keep the first
occurrence of each value, preserving encounter order. -/
def dropDupAux {α : Type} [DecidableEq α] (seen : List α) : List α → List α
  | [] => []
  | a :: l => if a ∈ seen then dropDupAux seen l else a :: dropDupAux (a :: seen) l

/-- pandas `DataFrame.drop_duplicates()` (full-row equality, keep first),
also the behaviour of `Series.unique()`. -/
def drop_duplicates {α : Type} [DecidableEq α] (l : List α) : List α :=
  dropDupAux [] l

/-- Spec-side formulation of de-duplication: remove exact duplicates while
keeping the first occurrence, by erasing later copies of the head. -/
def dedupKeepFirst {α : Type} [DecidableEq α] : List α → List α
  | [] => []
  | a :: l => a :: dedupKeepFirst (l.filter (fun b => decide (b ≠ a)))
termination_by l => l.length
decreasing_by
  simp only [List.length_cons]
  exact Nat.lt_succ_of_le (List.length_filter_le _ _)

/-- Spec-side formulation of taking up to `n` rows satisfying a predicate,
the first ones in source order. -/
def takeSat {α : Type} (p : α → Bool) : Nat → List α → List α
  | _, [] => []
  | 0, _ :: _ => []
  | n + 1, a :: l => if p a then a :: takeSat p n l else takeSat p (n + 1) l

/-- The three anomaly groups of streamlit_app.py lines 240-244, concatenated
before de-duplication: `pd.concat([df[d > 10].head(3), df[inv < 800].head(3),
df[q > 500].head(3)])`. -/
def anomalyCandidates (df : List Record) : List Record :=
  (df.filter (fun r => decide (10 < r.deliveryTimeDays))).take 3
    ++ (df.filter (fun r => decide (r.inventoryLevel < 800))).take 3
    ++ (df.filter (fun r => decide (500 < r.orderQuantity))).take 3

/-- `anomaly_examples` of streamlit_app.py: the concatenated groups with
exact-duplicate rows removed (pandas drop_duplicates, keep first).
The code then renders this row list with `to_string`; the rows themselves
are the sample. -/
def anomaly_examples (df : List Record) : List Record :=
  drop_duplicates (anomalyCandidates df)

/-- Spec-side anomaly sample, phrased as the spec words it: up to 3 rows
(the first 3 in source order) per predicate, groups concatenated in the
fixed order [delivery, inventory, quantity], then exact duplicates removed
keeping the first occurrence. -/
def anomalySampleSpec (df : List Record) : List Record :=
  dedupKeepFirst
    (takeSat (fun r => decide (10 < r.deliveryTimeDays)) 3 df
      ++ takeSat (fun r => decide (r.inventoryLevel < 800)) 3 df
      ++ takeSat (fun r => decide (500 < r.orderQuantity)) 3 df)

/-- Lexicographic minimum of two strings (ISO dates compare chronologically). -/
def strMin (a b : String) : String := if a < b then a else b

/-- Lexicographic maximum of two strings. -/
def strMax (a b : String) : String := if b < a then a else b

/-- The `metrics` dict built at streamlit_app.py lines 224-235. -/
structure Metrics where
  total_records : Nat
  date_range : String
  avg_delivery_time : Rat
  max_delivery_time : Rat
  min_inventory : Rat
  avg_inventory : Rat
  suppliers : List String
  products : List String
  delayed_orders : Nat
  total_order_value : Rat
deriving DecidableEq, Repr

/-- The metrics dict computed for a non-empty dataset `r :: rs`
(streamlit_app.py lines 224-235, field by field). -/
def metricsOf (r : Record) (rs : List Record) : Metrics :=
  let df := r :: rs
  { total_records := df.length
  , date_range :=
      (rs.foldl (fun a x => strMin a x.date) r.date) ++ " to "
        ++ (rs.foldl (fun a x => strMax a x.date) r.date)
  , avg_delivery_time :=
      round2 ((df.map (fun x => x.deliveryTimeDays)).sum / (df.length : Rat))
  , max_delivery_time := rs.foldl (fun a x => max a x.deliveryTimeDays) r.deliveryTimeDays
  , min_inventory := rs.foldl (fun a x => min a x.inventoryLevel) r.inventoryLevel
  , avg_inventory :=
      round2 ((df.map (fun x => x.inventoryLevel)).sum / (df.length : Rat))
  , suppliers := drop_duplicates (df.map (fun x => x.supplier))
  , products := drop_duplicates (df.map (fun x => x.product))
  , delayed_orders := (df.filter (fun x => x.status == "Delayed")).length
  , total_order_value := round2 ((df.map (fun x => x.orderValue)).sum) }

/-- Metric computation for an arbitrary dataset. On an empty dataset the
code computes `df['Date'].min()`, which is `NaT`, and `NaT.strftime`
raises, so no metrics dict is ever produced. -/
def computeMetrics : List Record → Except String Metrics
  | [] => Except.error "NaTType does not support strftime"
  | r :: rs => Except.ok (metricsOf r rs)

/-- Arithmetic mean of the Delivery_Time_Days column. -/
def meanDelivery (df : List Record) : Rat :=
  (df.map (fun x => x.deliveryTimeDays)).sum / (df.length : Rat)

/-- st.session_state fields initialised at streamlit_app.py lines 84-89. -/
structure SessionState where
  analysis_complete : Bool
  analysis_text : Option String
  metrics : Option Metrics
deriving DecidableEq, Repr

/-- Session state before any analysis run. -/
def initialState : SessionState :=
  { analysis_complete := false, analysis_text := none, metrics := none }

/-- One analysis run (the Analyze button handler): compute the metrics,
then call the narrative service. On success the three session fields are
stored wholesale; on a narrative failure the except branch only shows the
error and the session state is left untouched; a metrics-computation
failure propagates to the outer generic handler. Returns the new session
state and the error message surfaced, if any. -/
def runAnalysis (df : List Record) (narrative : Except String String)
    (s : SessionState) : SessionState × Option String :=
  match computeMetrics df with
  | Except.error e => (s, some ("Error loading file: " ++ e))
  | Except.ok m =>
    match narrative with
    | Except.ok text =>
      ({ analysis_complete := true, analysis_text := some text, metrics := some m }, none)
    | Except.error e => (s, some ("AI Analysis Error: " ++ e))

/-- The cached-results display gate (streamlit_app.py lines 311-321): the
metrics block is rendered only when `analysis_complete` is truthy, the
stored narrative text is a non-empty string, and a metrics dict is stored. -/
def displayedMetrics (s : SessionState) : Option Metrics :=
  if s.analysis_complete && !(s.analysis_text.getD "" == "") && s.metrics.isSome
  then s.metrics else none

/-- A raw parsed CSV table: named columns of string cells. -/
structure Table where
  cols : List (String × List String)
deriving DecidableEq, Repr

/-- Column access `df[name]`: `none` models the KeyError of a missing column. -/
def getCol (t : Table) (name : String) : Option (List String) :=
  (t.cols.find? (fun c => c.fst == name)).map (fun c => c.snd)

/-- The load step (streamlit_app.py lines 122-123): after `pd.read_csv`,
`df['Date'] = pd.to_datetime(df['Date'])`. A missing Date column raises
KeyError; an unparseable date raises inside `to_datetime`. The date parser
itself is external (pandas), so it is a parameter. -/
def loadData (parseDate : String → Option String) (t : Table) :
    Except String Table :=
  match getCol t "Date" with
  | none => Except.error "KeyError: Date"
  | some ds =>
    match ds.mapM parseDate with
    | none => Except.error "Unable to parse Date"
    | some parsed =>
      Except.ok ⟨t.cols.map (fun c => if c.fst == "Date" then (c.fst, parsed) else c)⟩

/-- The upload handler: on a load failure the except branch at lines
372-374 shows the error and nothing else happens — no preview, no dataset.
Returns the dataset retained (if any) and the error surfaced (if any). -/
def uploadFlow (parseDate : String → Option String) (t : Table) :
    Option Table × Option String :=
  match loadData parseDate t with
  | Except.ok d => (some d, none)
  | Except.error e => (none, some ("Error loading file: " ++ e))

/-- Row 1 of the end-to-end example dataset. -/
def row1 : Record :=
  ⟨"2024-01-01", "SupA", "Widget", 100, 5, 1000, 500, "On Time"⟩

/-- Row 2 of the end-to-end example dataset (the anomalous row). -/
def row2 : Record :=
  ⟨"2024-01-02", "SupB", "Widget", 600, 12, 750, 3000, "Delayed"⟩

/-- Row 3 of the end-to-end example dataset. -/
def row3 : Record :=
  ⟨"2024-01-03", "SupA", "Gadget", 50, 3, 900, 200, "On Time"⟩

/-- The 3-row example dataset of the spec. -/
def exampleData : List Record := [row1, row2, row3]

/-- A single-row dataset whose delivery time, 0.125 days, is exactly
representable in binary floating point but has three decimal digits. -/
def rowEighth : Record :=
  ⟨"2024-01-01", "SupA", "Widget", 1, 1/8, 1000, 500, "On Time"⟩

/-- A row whose Status is exactly the literal "Delayed". -/
def rowD1 : Record :=
  ⟨"2024-01-03", "SupB", "Widget", 10, 1, 900, 100, "Delayed"⟩

/-- A row whose Status is the lower-case "delayed". -/
def rowD2 : Record :=
  ⟨"2024-01-04", "SupC", "Widget", 10, 1, 900, 100, "delayed"⟩

/-- A row whose Status is " Delayed" with a leading space. -/
def rowD3 : Record :=
  ⟨"2024-01-05", "SupD", "Widget", 10, 1, 900, 100, " Delayed"⟩

/-- Supplier example rows: suppliers in source order B, A, B, C. -/
def rowB1 : Record := ⟨"2024-01-01", "B", "P1", 1, 1, 1000, 1, "On Time"⟩

/-- Second supplier example row. -/
def rowB2 : Record := ⟨"2024-01-02", "A", "P1", 1, 1, 1000, 1, "On Time"⟩

/-- Third supplier example row (supplier B again). -/
def rowB3 : Record := ⟨"2024-01-03", "B", "P1", 1, 1, 1000, 1, "On Time"⟩

/-- Fourth supplier example row. -/
def rowB4 : Record := ⟨"2024-01-04", "C", "P1", 1, 1, 1000, 1, "On Time"⟩

/-- A table whose header has no Date column. -/
def t0 : Table := ⟨[("Supplier", ["SupA"])]⟩

/-- A date parser that accepts nothing (its behaviour is irrelevant when
the Date column is absent). -/
def noParse : String → Option String := fun _ => none

/-- Taking up to `n` satisfying rows in source order is filtering then
truncating. -/
theorem takeSat_eq {α : Type} (p : α → Bool) (n : Nat) (l : List α) :
    takeSat p n l = (l.filter p).take n := by
  induction l generalizing n with
  | nil => cases n <;> simp [takeSat]
  | cons a l ih =>
    cases n with
    | zero => simp [takeSat]
    | succ n =>
      cases h : p a with
      | true => simp [takeSat, h, List.filter_cons, ih]
      | false => simp [takeSat, h, List.filter_cons, ih]

/-- Unfolding equation: de-duplicating the empty list. -/
theorem dedupKeepFirst_nil {α : Type} [DecidableEq α] :
    dedupKeepFirst ([] : List α) = [] := by
  rw [dedupKeepFirst]

/-- Unfolding equation: de-duplicating a cons keeps the head and erases its
later copies. -/
theorem dedupKeepFirst_cons {α : Type} [DecidableEq α] (a : α) (l : List α) :
    dedupKeepFirst (a :: l) = a :: dedupKeepFirst (l.filter (fun b => decide (b ≠ a))) := by
  rw [dedupKeepFirst]

/-- The accumulator form of first-occurrence de-duplication agrees with the
erase-later-copies form, relative to the values already seen. -/
theorem dropDupAux_eq {α : Type} [DecidableEq α] (l : List α) :
    ∀ seen : List α,
      dropDupAux seen l = dedupKeepFirst (l.filter (fun b => decide (b ∉ seen))) := by
  induction l with
  | nil => intro seen; simp [dropDupAux, dedupKeepFirst_nil]
  | cons a l ih =>
    intro seen
    rw [List.filter_cons]
    by_cases h : a ∈ seen
    · have hd : decide (a ∉ seen) = false := by simp [h]
      rw [hd]
      simp only [Bool.false_eq_true, if_false]
      simp only [dropDupAux, if_pos h]
      exact ih seen
    · have hd : decide (a ∉ seen) = true := by simp [h]
      rw [hd]
      simp only [if_true]
      simp only [dropDupAux, if_neg h]
      rw [ih (a :: seen), dedupKeepFirst_cons]
      congr 1
      rw [List.filter_filter]
      congr 1
      apply List.filter_congr
      intro b _
      by_cases hb : b = a
      · subst hb
        simp [List.mem_cons]
      · by_cases hbs : b ∈ seen <;> simp [List.mem_cons, hb, hbs]

/-- pandas drop_duplicates keeps the first occurrence of each row. -/
theorem drop_duplicates_eq {α : Type} [DecidableEq α] (l : List α) :
    drop_duplicates l = dedupKeepFirst l := by
  rw [drop_duplicates, dropDupAux_eq]
  congr 1
  apply List.filter_eq_self.mpr
  intro b _
  simp

/-- Every element of the de-duplicated list comes from the original list. -/
theorem mem_of_mem_dedupKeepFirst {α : Type} [DecidableEq α] :
    ∀ (n : Nat) (l : List α), l.length ≤ n →
      ∀ b : α, b ∈ dedupKeepFirst l → b ∈ l := by
  intro n
  induction n with
  | zero =>
    intro l hl b hb
    rw [List.length_eq_zero.mp (Nat.le_zero.mp hl)] at hb ⊢
    rw [dedupKeepFirst_nil] at hb
    exact hb
  | succ n ih =>
    intro l hl b hb
    cases l with
    | nil =>
      rw [dedupKeepFirst_nil] at hb
      exact absurd hb (List.not_mem_nil b)
    | cons a l =>
      rw [dedupKeepFirst_cons] at hb
      rcases List.mem_cons.mp hb with h | h
      · exact h ▸ List.mem_cons_self a l
      · have hlen : (l.filter (fun b => decide (b ≠ a))).length ≤ n :=
          Nat.le_trans (List.length_filter_le _ _) (Nat.le_of_succ_le_succ hl)
        exact List.mem_cons_of_mem a (List.mem_of_mem_filter (ih _ hlen b h))

/-- First-occurrence de-duplication leaves no duplicates. -/
theorem nodup_dedupKeepFirst {α : Type} [DecidableEq α] :
    ∀ (n : Nat) (l : List α), l.length ≤ n → (dedupKeepFirst l).Nodup := by
  intro n
  induction n with
  | zero =>
    intro l hl
    rw [List.length_eq_zero.mp (Nat.le_zero.mp hl), dedupKeepFirst_nil]
    exact List.nodup_nil
  | succ n ih =>
    intro l hl
    cases l with
    | nil =>
      rw [dedupKeepFirst_nil]
      exact List.nodup_nil
    | cons a l =>
      rw [dedupKeepFirst_cons]
      have hlen : (l.filter (fun b => decide (b ≠ a))).length ≤ n :=
        Nat.le_trans (List.length_filter_le _ _) (Nat.le_of_succ_le_succ hl)
      refine List.nodup_cons.mpr ⟨?_, ih _ hlen⟩
      intro hmem
      have := List.mem_filter.mp (mem_of_mem_dedupKeepFirst n _ hlen a hmem)
      simp at this

/-- The round-to-integer step moves a value by at most one half. -/
theorem abs_roundHalfEven_sub_le (y : Rat) :
    |((roundHalfEven y : Int) : Rat) - y| ≤ 1/2 := by
  have h0 : ((⌊y⌋ : Int) : Rat) ≤ y := Int.floor_le y
  have h1 : y < (⌊y⌋ : Rat) + 1 := Int.lt_floor_add_one y
  rw [roundHalfEven]
  by_cases hc1 : y - (⌊y⌋ : Rat) < 1/2
  · rw [if_pos hc1, abs_le]
    constructor <;> linarith
  · rw [if_neg hc1]
    by_cases hc2 : 1/2 < y - (⌊y⌋ : Rat)
    · rw [if_pos hc2, abs_le]
      push_cast
      constructor <;> linarith
    · rw [if_neg hc2]
      have heq : y - (⌊y⌋ : Rat) = 1/2 :=
        le_antisymm (not_lt.mp hc2) (not_lt.mp hc1)
      by_cases hpar : (⌊y⌋ % 2 == 0) = true
      · rw [if_pos hpar, abs_le]
        constructor <;> linarith
      · rw [if_neg hpar, abs_le]
        push_cast
        constructor <;> linarith

/-- Rounding to two decimals moves a value by at most 1/200. -/
theorem abs_round2_sub_le (x : Rat) : |round2 x - x| ≤ 1/200 := by
  have h := abs_roundHalfEven_sub_le (x * 100)
  rw [abs_le] at h ⊢
  obtain ⟨ha, hb⟩ := h
  rw [round2]
  constructor <;> linarith

/-- C1: for every Dataset, the anomaly sample is exactly the spec-described
construction: up to 3 rows (the first 3 in source order) for each of the
three predicates, groups concatenated in the order
[delivery > 10, inventory < 800, quantity > 500], then exact-duplicate
rows removed keeping the first occurrence. -/
theorem claim_anomaly_sample_construction (df : List Record) :
    anomaly_examples df = anomalySampleSpec df := by
  rw [anomaly_examples, anomalyCandidates, anomalySampleSpec,
    drop_duplicates_eq, takeSat_eq, takeSat_eq, takeSat_eq]

/-- C2: for every Dataset, the anomaly sample has at most 9 rows before
de-duplication, no duplicate rows after, every sampled row satisfies at
least one of the three predicates, and the construction is deterministic. -/
theorem claim_anomaly_sample_bounds (df : List Record) :
    (anomalyCandidates df).length ≤ 9
      ∧ (anomaly_examples df).Nodup
      ∧ (∀ x ∈ anomaly_examples df,
          10 < x.deliveryTimeDays ∨ x.inventoryLevel < 800 ∨ 500 < x.orderQuantity)
      ∧ anomaly_examples df = anomaly_examples df := by
  refine ⟨?_, ?_, ?_, rfl⟩
  · rw [anomalyCandidates]
    rw [List.length_append, List.length_append]
    have h1 := List.length_take_le 3 (df.filter (fun r => decide (10 < r.deliveryTimeDays)))
    have h2 := List.length_take_le 3 (df.filter (fun r => decide (r.inventoryLevel < 800)))
    have h3 := List.length_take_le 3 (df.filter (fun r => decide (500 < r.orderQuantity)))
    omega
  · rw [anomaly_examples, drop_duplicates_eq]
    exact nodup_dedupKeepFirst (anomalyCandidates df).length _ (Nat.le_refl _)
  · intro x hx
    rw [anomaly_examples, drop_duplicates_eq] at hx
    have hx2 := mem_of_mem_dedupKeepFirst (anomalyCandidates df).length _
      (Nat.le_refl _) x hx
    rw [anomalyCandidates] at hx2
    rcases List.mem_append.mp hx2 with h | h
    · rcases List.mem_append.mp h with h | h
      · left
        exact of_decide_eq_true (List.mem_filter.mp (List.take_subset _ _ h)).2
      · right; left
        exact of_decide_eq_true (List.mem_filter.mp (List.take_subset _ _ h)).2
    · right; right
      exact of_decide_eq_true (List.mem_filter.mp (List.take_subset _ _ h)).2

/-- C2 witness: the bounds instantiated at the 3-row example dataset, with
the predicate disjunction discharged at the concrete anomalous row. -/
theorem claim_anomaly_sample_bounds_witness :
    (anomalyCandidates exampleData).length ≤ 9
      ∧ (anomaly_examples exampleData).Nodup
      ∧ (10 < row2.deliveryTimeDays ∨ row2.inventoryLevel < 800 ∨ 500 < row2.orderQuantity)
      ∧ anomaly_examples exampleData = anomaly_examples exampleData :=
  ⟨(claim_anomaly_sample_bounds exampleData).1,
    (claim_anomaly_sample_bounds exampleData).2.1,
    (claim_anomaly_sample_bounds exampleData).2.2.1 row2 (by decide),
    (claim_anomaly_sample_bounds exampleData).2.2.2⟩

/-- C3: the end-to-end example: on the 3-row dataset the metrics are
total_records = 3, avg_delivery_time = 6.67, min_inventory = 750,
delayed_orders = 1, total_order_value = 3700.00, and the anomaly sample
contains row 2 exactly once. -/
theorem claim_example_end_to_end :
    (metricsOf row1 [row2, row3]).total_records = 3
      ∧ (metricsOf row1 [row2, row3]).avg_delivery_time = 667/100
      ∧ (metricsOf row1 [row2, row3]).min_inventory = 750
      ∧ (metricsOf row1 [row2, row3]).delayed_orders = 1
      ∧ (metricsOf row1 [row2, row3]).total_order_value = 3700
      ∧ (anomaly_examples [row1, row2, row3]).count row2 = 1 := by
  refine ⟨rfl, ?_, by decide, by decide, ?_, by decide⟩
  · simp only [metricsOf, row1, row2, row3]
    norm_num [round2, roundHalfEven]
  · simp only [metricsOf, row1, row2, row3]
    norm_num [round2, roundHalfEven]

/-- C4 counterexample: starting from a fresh session, a failing narrative
call on a non-empty dataset leaves no metrics displayed, even though the
metrics for that run were computed successfully — the run's metrics are
discarded, contradicting the claim that they remain visible. -/
theorem claim_narrative_failure_counterexample :
    displayedMetrics (runAnalysis exampleData (Except.error "boom") initialState).1 = none
      ∧ (computeMetrics exampleData).isOk = true :=
  ⟨rfl, rfl⟩

/-- C4 amended: when the narrative call fails on a non-empty dataset, the
raw error is surfaced (prefixed "AI Analysis Error:"), the session state is
left entirely unchanged — the metrics computed in that run are not stored —
and the displayed metrics are whatever the previous state displayed. -/
theorem claim_narrative_failure_state_unchanged (r : Record) (rs : List Record)
    (e : String) (s : SessionState) :
    runAnalysis (r :: rs) (Except.error e) s = (s, some ("AI Analysis Error: " ++ e))
      ∧ displayedMetrics (runAnalysis (r :: rs) (Except.error e) s).1 = displayedMetrics s :=
  ⟨rfl, rfl⟩

/-- C5: for every non-empty Dataset the stored total_records equals the
number of records; the empty Dataset produces no metrics at all. -/
theorem claim_total_records (r : Record) (rs : List Record) :
    (metricsOf r rs).total_records = (r :: rs).length := rfl

/-- C6 counterexample: for the single-row dataset whose Delivery_Time_Days
is 0.125 (exactly representable in floating point), the stored
avg_delivery_time is 0.12, not the row's value — `round(0.125, 2)` rounds
half to even. -/
theorem claim_avg_single_row_counterexample :
    (metricsOf rowEighth []).avg_delivery_time = 3/25
      ∧ (metricsOf rowEighth []).avg_delivery_time ≠ rowEighth.deliveryTimeDays := by
  have h : (metricsOf rowEighth []).avg_delivery_time = 3/25 := by
    simp only [metricsOf, rowEighth]
    norm_num [round2, roundHalfEven]
  refine ⟨h, ?_⟩
  rw [h]
  simp only [rowEighth]
  norm_num

/-- C6 amended: for every non-empty Dataset the stored avg_delivery_time is
within 1/200 of the arithmetic mean of the Delivery_Time_Days column, and
when the Dataset has exactly one row it equals that row's value rounded to
two decimal places (hence the value itself exactly when that value has at
most two decimals). -/
theorem claim_avg_delivery_rounding (r : Record) (rs : List Record) :
    |(metricsOf r rs).avg_delivery_time - meanDelivery (r :: rs)| ≤ 1/200
      ∧ (rs = [] → (metricsOf r rs).avg_delivery_time = round2 r.deliveryTimeDays) := by
  constructor
  · exact abs_round2_sub_le (meanDelivery (r :: rs))
  · intro h
    subst h
    show round2 (([r].map (fun x => x.deliveryTimeDays)).sum / (([r] : List Record).length : Rat))
      = round2 r.deliveryTimeDays
    norm_num

/-- C6 witness: the amended claim instantiated at a concrete single-row
dataset, with the single-row hypothesis discharged by rfl. -/
theorem claim_avg_delivery_rounding_witness :
    |(metricsOf row1 []).avg_delivery_time - meanDelivery [row1]| ≤ 1/200
      ∧ (metricsOf row1 []).avg_delivery_time = round2 row1.deliveryTimeDays :=
  ⟨(claim_avg_delivery_rounding row1 []).1,
    (claim_avg_delivery_rounding row1 []).2 rfl⟩

/-- C7: the delayed-order count equals the number of rows whose Status is
exactly the literal "Delayed" — case-sensitive, no trimming; in the
concrete dataset with statuses "Delayed", "delayed" and " Delayed" only
the first is counted. -/
theorem claim_delayed_orders_exact_match :
    (∀ (r : Record) (rs : List Record),
        (metricsOf r rs).delayed_orders
          = (r :: rs).countP (fun x => decide (x.status = "Delayed")))
      ∧ (metricsOf rowD1 [rowD2, rowD3]).delayed_orders = 1 := by
  constructor
  · intro r rs
    show ((r :: rs).filter (fun x => x.status == "Delayed")).length
      = (r :: rs).countP (fun x => decide (x.status = "Delayed"))
    rw [List.countP_eq_length_filter]
    congr 1
  · decide

/-- C8: the distinct supplier and product lists keep first-appearance
(source) order and contain no duplicates; input suppliers B, A, B, C yield
exactly [B, A, C]. -/
theorem claim_distinct_lists_first_seen :
    (∀ (r : Record) (rs : List Record),
        (metricsOf r rs).suppliers = dedupKeepFirst ((r :: rs).map (fun x => x.supplier))
          ∧ (metricsOf r rs).suppliers.Nodup
          ∧ (metricsOf r rs).products = dedupKeepFirst ((r :: rs).map (fun x => x.product))
          ∧ (metricsOf r rs).products.Nodup)
      ∧ (metricsOf rowB1 [rowB2, rowB3, rowB4]).suppliers = ["B", "A", "C"] := by
  constructor
  · intro r rs
    refine ⟨drop_duplicates_eq _, ?_, drop_duplicates_eq _, ?_⟩
    · show (drop_duplicates ((r :: rs).map (fun x => x.supplier))).Nodup
      rw [drop_duplicates_eq]
      exact nodup_dedupKeepFirst _ _ (Nat.le_refl _)
    · show (drop_duplicates ((r :: rs).map (fun x => x.product))).Nodup
      rw [drop_duplicates_eq]
      exact nodup_dedupKeepFirst _ _ (Nat.le_refl _)
  · decide

/-- C9: loading a table whose header lacks the "Date" column fails with the
load error shown to the user and produces no Dataset. -/
theorem claim_missing_date_load_error (p : String → Option String) (t : Table)
    (h : getCol t "Date" = none) :
    loadData p t = Except.error "KeyError: Date"
      ∧ uploadFlow p t = (none, some ("Error loading file: " ++ "KeyError: Date")) := by
  have h1 : loadData p t = Except.error "KeyError: Date" := by
    rw [loadData, h]
  refine ⟨h1, ?_⟩
  rw [uploadFlow, h1]

/-- C9 witness: the missing-Date failure at a concrete one-column table. -/
theorem claim_missing_date_load_error_witness :
    getCol t0 "Date" = none
      ∧ (loadData noParse t0 = Except.error "KeyError: Date"
          ∧ uploadFlow noParse t0 = (none, some ("Error loading file: " ++ "KeyError: Date"))) :=
  ⟨rfl, claim_missing_date_load_error noParse t0 rfl⟩

/-- C10: on an empty Dataset the metrics computation fails (formatting the
date range raises on the empty Date column), so the analysis run aborts
through the generic error handler: the session state is unchanged and no
metrics are stored or displayed. -/
theorem claim_empty_dataset_metrics_error (narrative : Except String String)
    (s : SessionState) :
    computeMetrics ([] : List Record) = Except.error "NaTType does not support strftime"
      ∧ runAnalysis [] narrative s
          = (s, some ("Error loading file: " ++ "NaTType does not support strftime")) :=
  ⟨rfl, rfl⟩

end SupplyChain
